import Mathlib

/-!
Verification of the build-metadata example artifact `scripts/examples/RepoInfo.cc`
of gkide/repo-hooks, against its specification.

The artifact is a generated C++ source file: a struct `RepoInfo` holding eight
static constant strings (build host identity, build identity, source modify
time, and version-control provenance), and a `main` that prints the eight
constants, one per line, and returns 0.

The embedding below translates the artifact directly: each static constant is a
Lean definition in namespace `RepoInfo`; the struct shape is mirrored by the
record type `BuildMetadataRecord`; `main`'s straight-line body is translated
both as the output/exit pair `runMain` and as a small-step machine (`mainStep`)
whose state carries the record, so that immutability of the constants during
execution is a statement and not a convention.  The external generator
(`scripts/sync-repo-info`) is not part of the sources; where a claim is about
it, it is modelled faithfully from the specification's description.
-/

namespace RepoInfo

/-- `const std::string RepoInfo::hostName = "host name";` -/
def hostName : String := "host name"

/-- `const std::string RepoInfo::hostUser = "user name";` -/
def hostUser : String := "user name"

/-- `const std::string RepoInfo::hostOsNV = "Ubuntu 14.04";` -/
def hostOsNV : String := "Ubuntu 14.04"

/-- `const std::string RepoInfo::buildUser = "user-name <email@demo.com>";` -/
def buildUser : String := "user-name <email@demo.com>"

/-- `const std::string RepoInfo::buildTime = "2018-01-30 10:20:30 +0845";` -/
def buildTime : String := "2018-01-30 10:20:30 +0845"

/-- `const std::string RepoInfo::modifyTime = "2019-01-30 20:50:59 +8123";` -/
def modifyTime : String := "2019-01-30 20:50:59 +8123"

/-- `const std::string RepoInfo::repoHash = "615";` (SVN revision or Git commit hash) -/
def repoHash : String := "615"

/-- `const std::string RepoInfo::repoUrl = "svn://addr/app/trunk/mta";` -/
def repoUrl : String := "svn://addr/app/trunk/mta"

end RepoInfo

/-- The entity of spec §3: eight plain-text fields.  This mirrors the shape of
the C++ `struct RepoInfo` (eight `std::string` members), field for field, in
declaration order. -/
structure BuildMetadataRecord where
  hostName : String
  hostUser : String
  hostOsNV : String
  buildUser : String
  buildTime : String
  modifyTime : String
  repoHash : String
  repoUrl : String
  deriving DecidableEq, Repr

/-- The concrete record the artifact defines: the eight `RepoInfo` constants
bundled as one `BuildMetadataRecord`. -/
def repoInfoRecord : BuildMetadataRecord :=
  { hostName := RepoInfo.hostName
    hostUser := RepoInfo.hostUser
    hostOsNV := RepoInfo.hostOsNV
    buildUser := RepoInfo.buildUser
    buildTime := RepoInfo.buildTime
    modifyTime := RepoInfo.modifyTime
    repoHash := RepoInfo.repoHash
    repoUrl := RepoInfo.repoUrl }

/-- The emitted artifact as a finite table of named constants, in the order of
the table in spec §3 (which is also the declaration and definition order of
the C++ file): name of the constant paired with its value. -/
def repoInfoConstants : List (String × String) :=
  [ ("hostName", RepoInfo.hostName)
  , ("hostUser", RepoInfo.hostUser)
  , ("hostOsNV", RepoInfo.hostOsNV)
  , ("buildUser", RepoInfo.buildUser)
  , ("buildTime", RepoInfo.buildTime)
  , ("modifyTime", RepoInfo.modifyTime)
  , ("repoHash", RepoInfo.repoHash)
  , ("repoUrl", RepoInfo.repoUrl) ]

/-- Translation of `main` (lines 35–47): eight `std::cout << ... << std::endl`
statements, each emitting one line, followed by `return 0`.  The result is the
list of printed lines paired with the exit code. -/
def runMain (r : BuildMetadataRecord) : List String × Nat :=
  ( [ r.hostName, r.hostUser, r.hostOsNV, r.buildUser
    , r.buildTime, r.modifyTime, r.repoHash, r.repoUrl ], 0)

/-- The field printed by the `n`-th statement of `main`'s body (`n = 0` is the
first `std::cout` line). -/
def printField (n : Nat) (r : BuildMetadataRecord) : String :=
  match n with
  | 0 => r.hostName
  | 1 => r.hostUser
  | 2 => r.hostOsNV
  | 3 => r.buildUser
  | 4 => r.buildTime
  | 5 => r.modifyTime
  | 6 => r.repoHash
  | _ => r.repoUrl

/-- Execution state of `main`: program counter over its eight print
statements, the record of constants in memory, and the output so far. -/
structure ExecState where
  pc : Nat
  record : BuildMetadataRecord
  out : List String
  deriving DecidableEq, Repr

/-- One step of `main`: while statements remain, print the next field and
advance; once past the last statement the state is final and stable. -/
def mainStep (s : ExecState) : ExecState :=
  if s.pc < 8 then
    { pc := s.pc + 1, record := s.record, out := s.out ++ [printField s.pc s.record] }
  else s

/-- The state in which `main` begins: first statement, record `r`, no output. -/
def initState (r : BuildMetadataRecord) : ExecState :=
  { pc := 0, record := r, out := [] }

/-- A calendar timestamp `YYYY-MM-DD HH:MM:SS`, the part of a timestamp field
that precedes the UTC offset.  Fields are plain naturals; the bounds needed by
the fixed-width decimal rendering are stated by `DT.InBounds`. -/
structure DT where
  year : Nat
  month : Nat
  day : Nat
  hour : Nat
  minute : Nat
  second : Nat
  deriving DecidableEq, Repr

/-- The bounds under which each component fits its fixed decimal width
(four digits for the year, two for every other component). -/
def DT.InBounds (t : DT) : Prop :=
  t.year < 10000 ∧ t.month < 100 ∧ t.day < 100 ∧
    t.hour < 100 ∧ t.minute < 100 ∧ t.second < 100

instance (t : DT) : Decidable t.InBounds := by
  unfold DT.InBounds; infer_instance

/-- Mixed-radix encoding of a timestamp as one natural, so that the
chronological order of in-bounds timestamps is the order of their keys. -/
def DT.key (t : DT) : Nat :=
  ((((t.year * 100 + t.month) * 100 + t.day) * 100 + t.hour) * 100
      + t.minute) * 100 + t.second

/-- The decimal digit character for `n < 10`. -/
def digitChar (n : Nat) : Char := Char.ofNat (48 + n)

/-- Two-digit zero-padded decimal rendering of `n < 100`. -/
def twoDigits (n : Nat) : List Char := [digitChar (n / 10), digitChar (n % 10)]

/-- Four-digit zero-padded decimal rendering of `n < 10000`. -/
def fourDigits (n : Nat) : List Char := twoDigits (n / 100) ++ twoDigits (n % 100)

/-- Render a timestamp as the character sequence `YYYY-MM-DD HH:MM:SS`. -/
def formatDT (t : DT) : List Char :=
  fourDigits t.year ++ '-' :: twoDigits t.month ++ '-' :: twoDigits t.day
    ++ ' ' :: twoDigits t.hour ++ ':' :: twoDigits t.minute
    ++ ':' :: twoDigits t.second

/-- The full timestamp string of the spec, `YYYY-MM-DD HH:MM:SS ±HHMM`:
the rendered calendar part followed by a space and the signed UTC offset. -/
def withOffset (l : List Char) (off : String) : String :=
  String.mk (l ++ ' ' :: off.data)

/-- The numeric value of a decimal digit character, `none` on anything else. -/
def digitVal (c : Char) : Option Nat :=
  if 48 ≤ c.toNat ∧ c.toNat ≤ 57 then some (c.toNat - 48) else none

/-- Read two digit characters as a two-digit decimal number. -/
def parse2 (a b : Char) : Option Nat := do
  let x ← digitVal a
  let y ← digitVal b
  pure (10 * x + y)

/-- Read a timestamp `YYYY-MM-DD HH:MM:SS` from the front of a character
sequence, ignoring whatever follows (in the artifact, the UTC offset). -/
def parseDTList (l : List Char) : Option DT :=
  match l with
  | y1 :: y2 :: y3 :: y4 :: '-' :: m1 :: m2 :: '-' :: d1 :: d2 :: ' '
      :: h1 :: h2 :: ':' :: i1 :: i2 :: ':' :: s1 :: s2 :: _ => do
    let yh ← parse2 y1 y2
    let yl ← parse2 y3 y4
    let mo ← parse2 m1 m2
    let d ← parse2 d1 d2
    let h ← parse2 h1 h2
    let mi ← parse2 i1 i2
    let s ← parse2 s1 s2
    pure ⟨yh * 100 + yl, mo, d, h, mi, s⟩
  | _ => none

/-- Read the leading `YYYY-MM-DD HH:MM:SS` timestamp of a string field. -/
def parseDT (s : String) : Option DT := parseDTList s.data

/-- The trailing five characters of a timestamp field, read as a signed UTC
offset: a sign character followed by four digits (`±HHMM`), giving the sign,
the hour count and the minute count; `none` when the field does not end in
that shape. -/
def offsetSuffix (s : String) : Option (Char × Nat × Nat) :=
  match s.data.reverse with
  | m2 :: m1 :: h2 :: h1 :: sgn :: _ =>
    if sgn = '+' ∨ sgn = '-' then do
      let hh ← parse2 h1 h2
      let mm ← parse2 m1 m2
      pure (sgn, hh, mm)
    else none
  | _ => none

/-- Whether an hour/minute pair denotes a possible UTC offset: fewer than 24
hours and fewer than 60 minutes (a deliberately liberal criterion; real-world
offsets are narrower still). -/
def validOffset (hh mm : Nat) : Bool := hh < 24 && mm < 60

/-- The field ends with a sign and four digits, in whatever amounts. -/
def endsWithSignedFourDigits (s : String) : Bool := (offsetSuffix s).isSome

/-- The field ends with a sign and four digits denoting a valid
hours/minutes UTC offset. -/
def hasValidOffsetSuffix (s : String) : Bool :=
  match offsetSuffix s with
  | some (_, hh, mm) => validOffset hh mm
  | none => false

/-- Modelled from the spec: the version-control identity reachable from the
source root (spec §4.1, `collectRepoIdentity`; §9): the current checked-out
revision identifier and the remote origin URL.  The revision is a free-form
string so that both a sequential numeric revision and a content hash fit.
The generator script `scripts/sync-repo-info` is not among the sources. -/
structure VcsInfo where
  hash : String
  url : String
  deriving DecidableEq, Repr

/-- Modelled from the spec: the sentinel placeholder the generator substitutes
when a field cannot be determined (spec §7, §8: for example "unknown"). -/
def sentinel : String := "unknown"

/-- Modelled from the spec: the build environment the generator inspects
(spec §6): host identity, configured build-user identity, the host's UTC
offset, the source tree's last-modified timestamp, and the version-control
metadata reachable from the source root — `none` when the source root is not
under version control.  On an unchanged tree between two immediately
successive runs, all of this is unchanged; only the clock reading differs. -/
structure HostEnv where
  hostName : String
  hostUser : String
  hostOsNV : String
  buildUser : String
  utcOffset : String
  modifyDT : DT
  vcs : Option VcsInfo
  deriving DecidableEq, Repr

/-- Modelled from the spec: `collectRepoIdentity` (spec §4.1, §7).  Queries the
version-control system; when the source root is not under version control
(the `NotAVersionControlledTree` condition, here `none`), it substitutes the
sentinel placeholder for both fields rather than failing. -/
def collectRepoIdentity (vcs : Option VcsInfo) : String × String :=
  match vcs with
  | some v => (v.hash, v.url)
  | none => (sentinel, sentinel)

/-- Result of one generator invocation: the emitted record and the generator
process exit code. -/
structure GenResult where
  record : BuildMetadataRecord
  exitCode : Nat
  deriving DecidableEq, Repr

/-- Modelled from the spec: one run of the Metadata Snapshot Generator
(spec §2, §4.1, `scripts/sync-repo-info`, absent from the sources) at clock
reading `now`.  It copies the host and build identity from the environment,
formats `buildTime` from the current clock and `modifyTime` from the tree's
last-modified time, both as `YYYY-MM-DD HH:MM:SS ±HHMM`, takes the
version-control fields from `collectRepoIdentity`, and succeeds (exit 0) even
when provenance is unavailable (spec §7: the build is never blocked). -/
def generate (env : HostEnv) (now : DT) : GenResult :=
  let repo := collectRepoIdentity env.vcs
  { record :=
    { hostName := env.hostName
      hostUser := env.hostUser
      hostOsNV := env.hostOsNV
      buildUser := env.buildUser
      buildTime := withOffset (formatDT now) env.utcOffset
      modifyTime := withOffset (formatDT env.modifyDT) env.utcOffset
      repoHash := repo.1
      repoUrl := repo.2 }
    exitCode := 0 }

/-- Environment used to exercise the generator on concrete data: the values of
the example artifact, a Subversion-style tree at revision 615. -/
def genEnvExample : HostEnv :=
  { hostName := "host name"
    hostUser := "user name"
    hostOsNV := "Ubuntu 14.04"
    buildUser := "user-name <email@demo.com>"
    utcOffset := "+0845"
    modifyDT := ⟨2019, 1, 30, 20, 50, 59⟩
    vcs := some ⟨"615", "svn://addr/app/trunk/mta"⟩ }

/-- Environment used to exercise the generator on a source root that is not
under version control. -/
def noVcsEnvExample : HostEnv :=
  { genEnvExample with vcs := none }

/-- What spec §8 promises about two immediately successive generator runs on
an unchanged tree: the six environment-determined fields agree, the build
times differ, and the timestamp the second build time denotes is strictly
greater than the one the first denotes. -/
def RerunAgrees (r1 r2 : BuildMetadataRecord) : Prop :=
  r1.hostName = r2.hostName ∧ r1.hostUser = r2.hostUser ∧
  r1.hostOsNV = r2.hostOsNV ∧ r1.repoHash = r2.repoHash ∧
  r1.repoUrl = r2.repoUrl ∧ r1.modifyTime = r2.modifyTime ∧
  r1.buildTime ≠ r2.buildTime ∧
  ∃ u1 u2, parseDT r1.buildTime = some u1 ∧ parseDT r2.buildTime = some u2 ∧
    u1.key < u2.key

/-- Reading back the two digit characters of a two-digit rendering recovers
the number. -/
theorem parse2_digitChar : ∀ n < 100,
    parse2 (digitChar (n / 10)) (digitChar (n % 10)) = some n := by decide

/-- Reading a rendered timestamp back from the front of a character sequence
recovers the timestamp, whatever follows it. -/
theorem parseDTList_format (t : DT) (hb : t.InBounds) (rest : List Char) :
    parseDTList (formatDT t ++ rest) = some t := by
  obtain ⟨hy, hmo, hd, hh, hmi, hs⟩ := hb
  have e0 := parse2_digitChar (t.year / 100) (by omega)
  have e1 := parse2_digitChar (t.year % 100) (by omega)
  have e2 := parse2_digitChar t.month hmo
  have e3 := parse2_digitChar t.day hd
  have e4 := parse2_digitChar t.hour hh
  have e5 := parse2_digitChar t.minute hmi
  have e6 := parse2_digitChar t.second hs
  have ey : t.year / 100 * 100 + t.year % 100 = t.year := by omega
  simp only [formatDT, fourDigits, twoDigits, List.cons_append, List.nil_append,
    List.append_assoc]
  simp [parseDTList, e0, e1, e2, e3, e4, e5, e6, ey]

/-- Reading the leading timestamp of a full `YYYY-MM-DD HH:MM:SS ±HHMM` field
recovers the timestamp it was rendered from. -/
theorem parseDT_withOffset (t : DT) (hb : t.InBounds) (off : String) :
    parseDT (withOffset (formatDT t) off) = some t :=
  parseDTList_format t hb (' ' :: off.data)

/-- C1: the emitted artifact defines exactly eight named string constants,
with exactly the names hostName, hostUser, hostOsNV, buildUser, buildTime,
modifyTime, repoHash, repoUrl of the §3 table, pairwise distinct, all under
the single scope `RepoInfo`, and each one defined and initialized: the table
of constants has length eight, its names are exactly the §3 names in order
with no duplicate, and its values are exactly the eight initialized
`RepoInfo` constants. -/
theorem repoInfo_eight_constants :
    repoInfoConstants.length = 8 ∧
    repoInfoConstants.map Prod.fst =
      [ "hostName", "hostUser", "hostOsNV", "buildUser"
      , "buildTime", "modifyTime", "repoHash", "repoUrl" ] ∧
    (repoInfoConstants.map Prod.fst).Nodup ∧
    repoInfoConstants.map Prod.snd =
      [ RepoInfo.hostName, RepoInfo.hostUser, RepoInfo.hostOsNV
      , RepoInfo.buildUser, RepoInfo.buildTime, RepoInfo.modifyTime
      , RepoInfo.repoHash, RepoInfo.repoUrl ] := by
  refine ⟨rfl, rfl, by decide, rfl⟩

/-- C2: `main` prints the eight metadata constants, one per line, exactly in
the order of the §3 table, and nothing else: the straight-line translation
emits exactly the values of the constant table in table order, the step
machine run to completion has produced exactly those lines, and the completed
machine is stable, so no further observable behaviour occurs before the
return. -/
theorem main_prints_in_table_order :
    (runMain repoInfoRecord).1 = repoInfoConstants.map Prod.snd ∧
    (runMain repoInfoRecord).1.length = 8 ∧
    (mainStep^[8] (initState repoInfoRecord)).out = repoInfoConstants.map Prod.snd ∧
    mainStep (mainStep^[8] (initState repoInfoRecord)) =
      mainStep^[8] (initState repoInfoRecord) := by
  refine ⟨rfl, rfl, by decide, by decide⟩

/-- C3, as stated, is false of the artifact: `modifyTime` ends in `+8123`,
whose hour count 81 does not denote a valid hours/minutes UTC offset, so its
suffix fails the sign-plus-valid-offset check. -/
theorem modifyTime_offset_not_valid :
    offsetSuffix RepoInfo.modifyTime = some ('+', 81, 23) ∧
    hasValidOffsetSuffix RepoInfo.modifyTime = false := by
  exact ⟨by decide, by decide⟩

/-- C3 amended: both timestamp fields end with a sign followed by four digits
(the syntactic `±HHMM` shape); `buildTime`'s suffix `+0845` moreover denotes a
valid hours/minutes offset, but `modifyTime`'s suffix `+8123` does not, its
hour count being 81. -/
theorem timestamp_offset_suffixes :
    endsWithSignedFourDigits RepoInfo.buildTime = true ∧
    endsWithSignedFourDigits RepoInfo.modifyTime = true ∧
    offsetSuffix RepoInfo.buildTime = some ('+', 8, 45) ∧
    hasValidOffsetSuffix RepoInfo.buildTime = true ∧
    offsetSuffix RepoInfo.modifyTime = some ('+', 81, 23) ∧
    validOffset 81 23 = false := by
  refine ⟨by decide, by decide, by decide, by decide, by decide, by decide⟩

/-- The record held by the machine is unchanged by one step of `main`. -/
theorem mainStep_record (s : ExecState) : (mainStep s).record = s.record := by
  unfold mainStep; split <;> rfl

/-- C4: every field of the record is immutable once emitted: the machine
starts with the record set (once, at creation) to `r`, and after any number
of execution steps of `main` the record held in memory is still exactly `r` —
no operation of the program mutates any of the eight constants. -/
theorem record_immutable (r : BuildMetadataRecord) (n : Nat) :
    (mainStep^[n] (initState r)).record = r := by
  suffices h : ∀ (s : ExecState) (m : Nat), (mainStep^[m] s).record = s.record by
    exact h (initState r) n
  intro s m
  induction m generalizing s with
  | zero => rfl
  | succ m ih => rw [Function.iterate_succ_apply, ih (mainStep s), mainStep_record]

/-- C5: `repoHash` is a free-form string, not a typed integer: the record
constructor accepts any string whatsoever as the `repoHash` field (so both a
sequential numeric revision and a content hash fit), and the example record
stores the numeric revision 615 as the all-digit string "615". -/
theorem repoHash_free_form_string :
    (∀ a b c d e f g h : String,
      (BuildMetadataRecord.mk a b c d e f g h).repoHash = g) ∧
    RepoInfo.repoHash = "615" ∧
    RepoInfo.repoHash.data.all (fun c => c.isDigit) = true ∧
    RepoInfo.repoHash.data = ['6', '1', '5'] := by
  exact ⟨fun a b c d e f g h => rfl, rfl, by decide, rfl⟩

/-- C6 (generator modelled from the spec): two runs in immediate succession
on an unchanged tree — same environment, clock readings `t1` then the strictly
later `t2` — produce pairwise identical hostName, hostUser, hostOsNV,
repoHash, repoUrl and modifyTime, but different buildTime values, the second
denoting a strictly greater timestamp; moreover each emitted buildTime reads
back as exactly the clock reading of its run. -/
theorem generator_rerun (env : HostEnv) (t1 t2 : DT)
    (h1 : t1.InBounds) (h2 : t2.InBounds) (hlt : t1.key < t2.key) :
    RerunAgrees (generate env t1).record (generate env t2).record ∧
    parseDT (generate env t1).record.buildTime = some t1 ∧
    parseDT (generate env t2).record.buildTime = some t2 := by
  have p1 : parseDT (generate env t1).record.buildTime = some t1 :=
    parseDT_withOffset t1 h1 env.utcOffset
  have p2 : parseDT (generate env t2).record.buildTime = some t2 :=
    parseDT_withOffset t2 h2 env.utcOffset
  refine ⟨⟨rfl, rfl, rfl, rfl, rfl, rfl, ?_, t1, t2, p1, p2, hlt⟩, p1, p2⟩
  intro heq
  rw [heq, p2] at p1
  cases p1
  exact absurd hlt (lt_irrefl _)

/-- Witness for C6: the generator run at the example environment with the
example build clock and one second later. -/
theorem generator_rerun_witness :
    DT.InBounds ⟨2018, 1, 30, 10, 20, 30⟩ ∧
    DT.InBounds ⟨2018, 1, 30, 10, 20, 31⟩ ∧
    DT.key ⟨2018, 1, 30, 10, 20, 30⟩ < DT.key ⟨2018, 1, 30, 10, 20, 31⟩ ∧
    (RerunAgrees (generate genEnvExample ⟨2018, 1, 30, 10, 20, 30⟩).record
        (generate genEnvExample ⟨2018, 1, 30, 10, 20, 31⟩).record ∧
      parseDT (generate genEnvExample ⟨2018, 1, 30, 10, 20, 30⟩).record.buildTime =
        some ⟨2018, 1, 30, 10, 20, 30⟩ ∧
      parseDT (generate genEnvExample ⟨2018, 1, 30, 10, 20, 31⟩).record.buildTime =
        some ⟨2018, 1, 30, 10, 20, 31⟩) :=
  ⟨by decide, by decide, by decide,
    generator_rerun genEnvExample _ _ (by decide) (by decide) (by decide)⟩

/-- C7 (generator modelled from the spec): when the source root is not under
version control, the generator emits the sentinel placeholder "unknown" for
both repoHash and repoUrl, and still exits with success (0) rather than
aborting the build. -/
theorem generator_no_vcs (env : HostEnv) (now : DT) (h : env.vcs = none) :
    (generate env now).record.repoHash = sentinel ∧
    (generate env now).record.repoUrl = sentinel ∧
    (generate env now).exitCode = 0 := by
  simp [generate, collectRepoIdentity, h]

/-- Witness for C7: the untracked example environment. -/
theorem generator_no_vcs_witness :
    noVcsEnvExample.vcs = none ∧
    ((generate noVcsEnvExample ⟨2018, 1, 30, 10, 20, 30⟩).record.repoHash = sentinel ∧
      (generate noVcsEnvExample ⟨2018, 1, 30, 10, 20, 30⟩).record.repoUrl = sentinel ∧
      (generate noVcsEnvExample ⟨2018, 1, 30, 10, 20, 30⟩).exitCode = 0) :=
  ⟨rfl, generator_no_vcs noVcsEnvExample ⟨2018, 1, 30, 10, 20, 30⟩ rfl⟩

/-- C8: for every record of constants, `main` terminates (it is a total
function) and returns exactly 0; there is no error branch and no input under
which it returns a nonzero value. -/
theorem main_returns_zero (r : BuildMetadataRecord) : (runMain r).2 = 0 := rfl

/-- C9: each of the eight emitted constants is a non-empty string, and
consequently no line `main` prints is empty. -/
theorem constants_nonempty :
    (repoInfoConstants.all fun p => !p.2.isEmpty) = true ∧
    ((runMain repoInfoRecord).1.all fun l => !l.isEmpty) = true := by
  exact ⟨by decide, by decide⟩

/-- C10: in the emitted example record the source-modification timestamp
(2019-01-30 20:50:59) is strictly later than the build timestamp
(2018-01-30 10:20:30): parsing the two fields gives exactly those calendar
timestamps, and the build one precedes the modify one chronologically. -/
theorem modifyTime_postdates_buildTime :
    parseDT RepoInfo.buildTime = some ⟨2018, 1, 30, 10, 20, 30⟩ ∧
    parseDT RepoInfo.modifyTime = some ⟨2019, 1, 30, 20, 50, 59⟩ ∧
    DT.key ⟨2018, 1, 30, 10, 20, 30⟩ < DT.key ⟨2019, 1, 30, 20, 50, 59⟩ := by
  refine ⟨by decide, by decide, by decide⟩
